import Mathlib

/-!
Shallow embedding of src/SelectContactDetailControl/index.ts, the single
view-controller class `ContactDetailControl` of the Contact-Detail-Dashboard
repository. DOM state that the control writes (tab content, the rendered
contact list, the drawn chart) is modelled as explicit fields of a `State`
structure; event handlers and lifecycle methods become pure functions on
`State`. JavaScript strings are Lean `String`, nullable values are `Option`,
and a `Record` of counts keyed by string (whose keys, for the labels used
here, iterate in insertion order) is an association list `List (String × Nat)`.
-/

/-- The `Contact` interface (index.ts lines 7-13): all fields are strings. -/
structure Contact where
  id : String
  name : String
  email : String
  city : String
  job : String
deriving DecidableEq, Repr

/-- A raw API record as consumed by `loadContacts` (index.ts lines 157-162):
the five projected attributes, each possibly absent. -/
structure Entity where
  contactid : Option String
  fullname : Option String
  emailaddress1 : Option String
  address1_city : Option String
  jobtitle : Option String
deriving DecidableEq, Repr

/-- The `RelatedRecord` interface (index.ts lines 15-20). -/
structure RelatedRecord where
  id : String
  name : String
  type : String
  status : Option String
deriving DecidableEq, Repr

/-- The grouping key argument of `updateChart` (index.ts line 286): the string
union type `"city" | "job"`. -/
inductive GroupBy where
  | city : GroupBy
  | job : GroupBy
deriving DecidableEq, Repr

/-- Observable state of the control: its private fields together with the DOM
surface it writes into. `chartContext` is whether the canvas 2d context was
obtained at layout time; `chart` is whether a chart.js instance currently
exists; `lastChart` records the grouped data and dataset label most recently
handed to the charting library; `contactListView` is the list of contacts
currently rendered into the contact-list panel; `tabContent` is the current
content of the tab panel; `activeGroup` is which of the By City / By Job
buttons carries the active class. -/
structure State where
  chartContext : Bool
  chart : Bool
  chartType : String
  activeGroup : GroupBy
  selectedContactId : Option String
  contacts : List Contact
  contactListView : List Contact
  activeTab : String
  tabContent : String
  entityCounts : List (String × Nat)
  lastChart : Option (List (String × Nat) × String)
deriving DecidableEq, Repr

/-- The contact field selected by the grouping key (index.ts line 291). -/
def keyOf (g : GroupBy) (c : Contact) : String :=
  match g with
  | GroupBy.city => c.city
  | GroupBy.job => c.job

/-- One step of `grouped[key] = (grouped[key] || 0) + 1` (index.ts line 292)
on the association-list model of the `grouped` record: increment the entry of
`k` if present, otherwise append `(k, 1)`. -/
def bump : List (String × Nat) → String → List (String × Nat)
  | [], k => [(k, 1)]
  | (q, n) :: rest, k =>
    if k = q then (q, n + 1) :: rest else (q, n) :: bump rest k

/-- The grouping loop of `updateChart` (index.ts lines 289-293): fold the
contact list into a record of counts keyed by city or job. -/
def groupContacts (g : GroupBy) (cs : List Contact) : List (String × Nat) :=
  cs.foldl (fun m c => bump m (keyOf g c)) []

/-- Sum of the values of a grouped record, `Object.values(grouped)` summed. -/
def sumVals (m : List (String × Nat)) : Nat :=
  (m.map Prod.snd).sum

/-- Keys of a grouped record, `Object.keys(grouped)`. -/
def keysOf (m : List (String × Nat)) : List String :=
  m.map Prod.fst

/-- Whether `pre` occurs at the start of `l`: the prefix test underlying the
JavaScript substring test. -/
def prefixEq : List Char → List Char → Bool
  | [], _ => true
  | _ :: _, [] => false
  | a :: as, b :: bs => a == b && prefixEq as bs

/-- Whether `needle` occurs contiguously somewhere in the second list: the
semantics of `String.prototype.includes`. -/
def hasSub (needle : List Char) : List Char → Bool
  | [] => needle.isEmpty
  | b :: rest => prefixEq needle (b :: rest) || hasSub needle rest

/-- Character data of `s.toLowerCase()` (ASCII case folding, as `Char.toLower`
models the lowercasing the contact names here need). -/
def lowerStr (s : String) : List Char :=
  s.data.map Char.toLower

/-- The semantics of `String.prototype.trim`: drop leading and trailing
whitespace. -/
def jsTrim (s : String) : String :=
  ⟨((s.data.dropWhile Char.isWhitespace).reverse.dropWhile
      Char.isWhitespace).reverse⟩

/-- The search-box input handler body (index.ts lines 136-139): trim and
lowercase the entered value, then keep the contacts whose lowercased name
contains it. -/
def searchFilter (raw : String) (cs : List Contact) : List Contact :=
  let term := lowerStr (jsTrim raw)
  cs.filter (fun c => hasSub term (lowerStr c.name))

/-- The full search handler: re-render the contact list with the filtered
contacts; `this.contacts` itself is not written. -/
def searchHandler (raw : String) (st : State) : State :=
  { st with contactListView := searchFilter raw st.contacts }

/-- Replace every occurrence of the character `p` in a character list by the
replacement string `r`: one global single-character `String.replace` pass. -/
def rep (p : Char) (r : List Char) : List Char → List Char
  | [] => []
  | a :: rest => (if a = p then r else [a]) ++ rep p r rest

/-- The `escapeHtml` chain (index.ts lines 373-380): five sequential global
replaces, ampersand first. -/
def escapeHtmlData (s : List Char) : List Char :=
  rep (Char.ofNat 39) "&#039;".data
    (rep '"' "&quot;".data
      (rep '>' "&gt;".data
        (rep '<' "&lt;".data
          (rep '&' "&amp;".data s))))

/-- String-level `escapeHtml`. -/
def escapeHtml (s : String) : String :=
  ⟨escapeHtmlData s.data⟩

/-- Per-character entity map: the claim-level reading of `escapeHtml`, each of
the five HTML-special characters replaced by its entity independently. -/
def escChar (a : Char) : List Char :=
  if a = '&' then "&amp;".data
  else if a = '<' then "&lt;".data
  else if a = '>' then "&gt;".data
  else if a = '"' then "&quot;".data
  else if a = Char.ofNat 39 then "&#039;".data
  else [a]

/-- One simultaneous pass of the per-character entity map. -/
def escAll : List Char → List Char
  | [] => []
  | a :: rest => escChar a ++ escAll rest

/-- The template literal assigned to the detail panel by `showContactDetails`
(index.ts lines 227-232), with each interpolated field escaped. -/
def detailsHtml (c : Contact) : String :=
  "\n      <h4>" ++ escapeHtml c.name ++ "</h4>\n      <p><strong>Email:</strong> "
    ++ escapeHtml c.email ++ "</p>\n      <p><strong>City:</strong> "
    ++ escapeHtml c.city ++ "</p>\n      <p><strong>Job Title:</strong> "
    ++ escapeHtml c.job ++ "</p>\n    "

/-- `updateChart` (index.ts lines 286-296): bail out when the canvas context
is absent, otherwise group the stored contacts and hand the grouped data to
`renderChart`, which destroys any previous chart instance (swallowing destroy
errors) and draws a new one labelled Contacts. -/
def updateChart (st : State) (g : GroupBy) : State :=
  if st.chartContext then
    { st with chart := true, lastChart := some (groupContacts g st.contacts, "Contacts") }
  else st

/-- `showContactDetails` (index.ts lines 223-234): write the escaped detail
markup into the tab panel, then redraw the chart grouped by city. -/
def showContactDetails (st : State) (c : Contact) : State :=
  updateChart { st with tabContent := detailsHtml c } GroupBy.city

/-- `switchTab` (index.ts lines 201-221). Returns the new state together with
the entity name of the related-data load it fires, if any: the active tab
class moves to the clicked tab; with no selection and a non-contact tab the
panel shows the prompt and nothing is fetched; on the contact tab the selected
contact (when found among the stored contacts) is shown; otherwise
`loadRelatedData` is invoked for the tab name. -/
def switchTab (st : State) (tabName : String) : State × Option String :=
  let st1 := { st with activeTab := tabName }
  if st1.selectedContactId = none ∧ tabName ≠ "contact" then
    ({ st1 with tabContent := "Select a contact first." }, none)
  else if tabName = "contact" then
    match st1.contacts.find? (fun c => st1.selectedContactId == some c.id) with
    | some c => (showContactDetails st1 c, none)
    | none => (st1, none)
  else
    (st1, some tabName)

/-- `onContactSelect` (index.ts lines 195-199): record the selected id, switch
to the contact tab, then show the details of the clicked contact. -/
def onContactSelect (st : State) (c : Contact) : State :=
  let st1 := { st with selectedContactId := some c.id }
  showContactDetails (switchTab st1 "contact").1 c

/-- `destroy` (index.ts lines 363-371): tear down the chart instance if one
exists (swallowing errors); no other field of the control is touched. -/
def destroy (st : State) : State :=
  { st with chart := false }

/-- Mapping of one raw record to the `Contact` shape (index.ts lines 157-162):
`String(field ?? default)` becomes `Option.getD`. -/
def toContact (e : Entity) : Contact :=
  { id := e.contactid.getD ""
    name := e.fullname.getD "Unnamed"
    email := e.emailaddress1.getD "N/A"
    city := e.address1_city.getD "Unknown"
    job := e.jobtitle.getD "N/A" }

/-- The stored sequence produced by a successful load (index.ts line 163):
map, then drop the records whose id is the empty string (the only falsy
string). -/
def loadedContacts (es : List Entity) : List Contact :=
  (es.map toContact).filter (fun ct => ct.id != "")

/-- Upsert into the entity-counts record, preserving insertion order. -/
def setCount : List (String × Nat) → String → Nat → List (String × Nat)
  | [], k, v => [(k, v)]
  | (q, n) :: rest, k, v =>
    if k = q then (q, v) :: rest else (q, n) :: setCount rest k v

/-- `calculateEntityCounts` (index.ts lines 349-353): seed every known
related-entity count to zero. -/
def calculateEntityCounts (m : List (String × Nat)) : List (String × Nat) :=
  ["opportunities", "activities", "orders", "quotes", "products", "accounts",
    "leads"].foldl (fun m e => setCount m e 0) m

/-- Side requests a lifecycle step can emit besides its state change. -/
inductive Eff where
  | logError : Eff
  | fetchContacts : Eff
deriving DecidableEq, Repr

/-- The fixed failure message of the contact-load catch block (line 171). -/
def failMsg : String := "Failed to load contacts. Check console for details."

/-- `loadContacts` (index.ts lines 150-173) after its one fetch settles, the
outcome passed in as an `Except`. Success stores the mapped-and-filtered
contacts, renders the list, seeds the entity counts and draws the by-city
chart; rejection is caught: it logs, replaces the panel text with the fixed
failure message, and issues no further request. -/
def loadContacts (st : State) (result : Except String (List Entity)) :
    State × List Eff :=
  match result with
  | Except.ok es =>
    let cs := loadedContacts es
    let st1 := { st with
                 contacts := cs
                 contactListView := cs
                 entityCounts := calculateEntityCounts st.entityCounts }
    (updateChart st1 GroupBy.city, [])
  | Except.error _ => ({ st with tabContent := failMsg }, [Eff.logError])

/-- The fixed 8-entry palette of `getColors` (index.ts line 345). -/
def palette : List String :=
  ["#2563eb", "#10b981", "#f59e0b", "#ef4444", "#6366f1", "#14b8a6",
    "#fbbf24", "#ec4899"]

/-- `getColors` (index.ts lines 344-347): one palette entry per category,
cycling by index modulo the palette length. -/
def getColors (count : Nat) : List String :=
  (List.range count).map (fun i => palette.getD (i % palette.length) "")

/-- The By City button click handler (index.ts lines 124-128): move the
active class to By City and redraw grouped by city. -/
def clickByCity (st : State) : State :=
  updateChart { st with activeGroup := GroupBy.city } GroupBy.city

/-- The By Job button click handler (index.ts lines 130-134). -/
def clickByJob (st : State) : State :=
  updateChart { st with activeGroup := GroupBy.job } GroupBy.job

/-- The chart-type selector change handler (index.ts lines 118-122): store the
new visual type and redraw with the grouping of whichever button is active. -/
def changeChartType (st : State) (t : String) : State :=
  let st1 := { st with chartType := t }
  updateChart st1 st1.activeGroup

/-- Modelled from the claim wording of the search property, for comparison
with the code: the subset of contacts whose name contains the raw entered
term case-insensitively, with no trimming of the term. -/
def claimSearchFilter (raw : String) (cs : List Contact) : List Contact :=
  cs.filter (fun c => hasSub (lowerStr raw) (lowerStr c.name))

/-- `entityName.charAt(0).toUpperCase() + entityName.slice(1)` (line 244). -/
def capitalize (s : String) : String :=
  match s.data with
  | [] => ""
  | a :: rest => ⟨Char.toUpper a :: rest⟩

/-- The mock related records synthesized by `loadRelatedData` (index.ts lines
242-247), with the random draw `Math.floor(Math.random() * 5) + 1` passed in
as the length `n`. -/
def mockRelated (entityName : String) (n : Nat) : List RelatedRecord :=
  (List.range n).map (fun i =>
    { id := entityName ++ "-" ++ toString (i + 1)
      name := capitalize entityName ++ " Record " ++ toString (i + 1)
      type := entityName
      status := some (if i % 2 = 0 then "Active" else "Closed") })

/-- Text of one related-record list item (index.ts line 266). -/
def relatedItem (r : RelatedRecord) : String :=
  r.name ++ " [" ++ r.status.getD "N/A" ++ "]"

/-- `renderRelatedRecords` (index.ts lines 258-273): write the total line and
the item list into the tab panel and record the count for the entity. -/
def renderRelatedRecords (st : State) (records : List RelatedRecord)
    (entityName : String) : State :=
  { st with
    tabContent := "<p>Total " ++ escapeHtml entityName ++ ": "
      ++ toString records.length ++ "</p><ul>"
      ++ String.join (records.map (fun r => "<li>" ++ relatedItem r ++ "</li>"))
      ++ "</ul>"
    entityCounts := setCount st.entityCounts entityName records.length }

/-- The grouping loop of `updateChartByEntity` (index.ts lines 301-305). -/
def groupByStatus (records : List RelatedRecord) : List (String × Nat) :=
  records.foldl (fun m r => bump m (r.status.getD "Unknown")) []

/-- `updateChartByEntity` (index.ts lines 298-308). -/
def updateChartByEntity (st : State) (records : List RelatedRecord)
    (entityName : String) : State :=
  if st.chartContext then
    { st with chart := true
              lastChart := some (groupByStatus records, entityName) }
  else st

/-- The continuation of `loadRelatedData` after its 150 ms delay resolves
(index.ts lines 250-251): render the mock records, then chart them by status.
The code runs it unconditionally; it consults no destroyed flag. -/
def resolveRelated (st : State) (entityName : String) (n : Nat) : State :=
  let records := mockRelated entityName n
  updateChartByEntity (renderRelatedRecords st records entityName) records
    entityName

/-- A whole-system state for the destroy-during-fetch interleaving: the
control state, the pending related-data fetch if one is in flight, whether
the host has destroyed the control and removed its container, and how many
DOM writes the control has performed after that removal. -/
structure Sys where
  ctrl : State
  pending : Option String
  removed : Bool
  writesAfterRemoval : Nat
deriving DecidableEq, Repr

/-- Discrete events of the interleaving: a tab click, the host destroying the
control, and the pending mock delay resolving with random draw `n`. -/
inductive Ev where
  | clickTab : String → Ev
  | hostDestroy : Ev
  | resolve : Nat → Ev
deriving DecidableEq, Repr

/-- Bump the after-removal write counter when the container is already gone. -/
def noteWrite (s : Sys) : Nat :=
  if s.removed then s.writesAfterRemoval + 1 else s.writesAfterRemoval

/-- One event step. A tab click runs `switchTab`; when it fires a related-data
load, the synchronous prefix of `loadRelatedData` (index.ts line 239) writes
the loading text and the fetch becomes pending. `hostDestroy` runs `destroy`,
which leaves the pending fetch in place: the code holds no cancellation token.
`resolve` runs the pending continuation, which writes into the container
whether or not it was removed. -/
def step (s : Sys) (e : Ev) : Sys :=
  match e with
  | Ev.clickTab t =>
    let r := switchTab s.ctrl t
    match r.2 with
    | some ent =>
      { s with
        ctrl := { r.1 with tabContent := "Loading related records..." }
        pending := some ent
        writesAfterRemoval := noteWrite s }
    | none =>
      { s with ctrl := r.1, writesAfterRemoval := noteWrite s }
  | Ev.hostDestroy =>
    { s with ctrl := destroy s.ctrl, removed := true }
  | Ev.resolve n =>
    match s.pending with
    | none => s
    | some ent =>
      { s with
        ctrl := resolveRelated s.ctrl ent n
        pending := none
        writesAfterRemoval := noteWrite s }

/-- Run a sequence of events. -/
def run (s : Sys) (es : List Ev) : Sys :=
  es.foldl step s

/-- A concrete contact used by the witnesses. -/
def demoContact : Contact :=
  { id := "1", name := "x", email := "e", city := "NY", job := "Dev" }

/-- The control state right after `init` built the layout, with a live canvas
context and nothing loaded yet. -/
def demoState : State :=
  { chartContext := true
    chart := false
    chartType := "bar"
    activeGroup := GroupBy.city
    selectedContactId := none
    contacts := []
    contactListView := []
    activeTab := "contact"
    tabContent := "Select a contact to view details."
    entityCounts := []
    lastChart := none }

/-- A state with one loaded contact selected and the By Job grouping active. -/
def demoLoaded : State :=
  { demoState with
    contacts := [demoContact]
    contactListView := [demoContact]
    selectedContactId := some "1"
    activeGroup := GroupBy.job }

theorem sumVals_bump (m : List (String × Nat)) (k : String) :
    sumVals (bump m k) = sumVals m + 1 := by
  induction m with
  | nil => simp [bump, sumVals]
  | cons p rest ih =>
    obtain ⟨q, n⟩ := p
    by_cases h : k = q
    · simp [bump, h, sumVals]
      omega
    · simp [bump, h, sumVals] at *
      omega

theorem mem_keysOf_bump (m : List (String × Nat)) (k x : String) :
    x ∈ keysOf (bump m k) ↔ x ∈ keysOf m ∨ x = k := by
  induction m with
  | nil => simp [bump, keysOf]
  | cons p rest ih =>
    obtain ⟨q, n⟩ := p
    by_cases h : k = q
    · subst h
      simp [bump, keysOf]
      tauto
    · simp [bump, h, keysOf] at *
      tauto

theorem sumVals_groupFold (g : GroupBy) (cs : List Contact) :
    ∀ m, sumVals (cs.foldl (fun m c => bump m (keyOf g c)) m) =
      sumVals m + cs.length := by
  induction cs with
  | nil => simp
  | cons c rest ih =>
    intro m
    simp only [List.foldl_cons, List.length_cons]
    rw [ih, sumVals_bump]
    omega

theorem mem_keysOf_groupFold (g : GroupBy) (cs : List Contact) (x : String) :
    ∀ m, x ∈ keysOf (cs.foldl (fun m c => bump m (keyOf g c)) m) ↔
      x ∈ keysOf m ∨ x ∈ cs.map (keyOf g) := by
  induction cs with
  | nil => simp
  | cons c rest ih =>
    intro m
    simp only [List.foldl_cons, List.map_cons, List.mem_cons]
    rw [ih, mem_keysOf_bump]
    tauto

/-- C1: for every stored contact sequence, grouping by city or by job as done
in `updateChart` produces a mapping whose values sum to the total number of
contacts and whose key set equals the set of distinct city (or job) values
present; contacts with cities NY, NY, LA grouped by city yield the mapping
NY to 2 and LA to 1. -/
theorem c1_grouping_spec :
    (∀ g cs, sumVals (groupContacts g cs) = cs.length) ∧
    (∀ g cs x, x ∈ keysOf (groupContacts g cs) ↔ x ∈ cs.map (keyOf g)) ∧
    groupContacts GroupBy.city
      [⟨"1", "A", "a", "NY", "j"⟩, ⟨"2", "B", "b", "NY", "j"⟩,
        ⟨"3", "C", "c", "LA", "j"⟩] = [("NY", 2), ("LA", 1)] := by
  refine ⟨?_, ?_, by decide⟩
  · intro g cs
    have h := sumVals_groupFold g cs []
    simpa [groupContacts, sumVals] using h
  · intro g cs x
    have h := mem_keysOf_groupFold g cs x []
    simpa [groupContacts, keysOf] using h

theorem updateChart_tabContent (st : State) (g : GroupBy) :
    (updateChart st g).tabContent = st.tabContent := by
  unfold updateChart
  split <;> rfl

theorem updateChart_activeTab (st : State) (g : GroupBy) :
    (updateChart st g).activeTab = st.activeTab := by
  unfold updateChart
  split <;> rfl

theorem updateChart_selectedContactId (st : State) (g : GroupBy) :
    (updateChart st g).selectedContactId = st.selectedContactId := by
  unfold updateChart
  split <;> rfl

theorem updateChart_contacts (st : State) (g : GroupBy) :
    (updateChart st g).contacts = st.contacts := by
  unfold updateChart
  split <;> rfl

theorem updateChart_activeGroup (st : State) (g : GroupBy) :
    (updateChart st g).activeGroup = st.activeGroup := by
  unfold updateChart
  split <;> rfl

theorem updateChart_chartContext (st : State) (g : GroupBy) :
    (updateChart st g).chartContext = st.chartContext := by
  unfold updateChart
  split <;> rfl

theorem updateChart_lastChart (st : State) (g : GroupBy)
    (h : st.chartContext = true) :
    (updateChart st g).lastChart = some (groupContacts g st.contacts, "Contacts") := by
  simp [updateChart, h]

theorem showContactDetails_tabContent (st : State) (c : Contact) :
    (showContactDetails st c).tabContent = detailsHtml c := by
  simp [showContactDetails, updateChart_tabContent]

theorem showContactDetails_activeTab (st : State) (c : Contact) :
    (showContactDetails st c).activeTab = st.activeTab := by
  simp [showContactDetails, updateChart_activeTab]

theorem showContactDetails_selectedContactId (st : State) (c : Contact) :
    (showContactDetails st c).selectedContactId = st.selectedContactId := by
  simp [showContactDetails, updateChart_selectedContactId]

theorem showContactDetails_contacts (st : State) (c : Contact) :
    (showContactDetails st c).contacts = st.contacts := by
  simp [showContactDetails, updateChart_contacts]

theorem showContactDetails_activeGroup (st : State) (c : Contact) :
    (showContactDetails st c).activeGroup = st.activeGroup := by
  simp [showContactDetails, updateChart_activeGroup]

theorem showContactDetails_chartContext (st : State) (c : Contact) :
    (showContactDetails st c).chartContext = st.chartContext := by
  simp [showContactDetails, updateChart_chartContext]

theorem showContactDetails_lastChart (st : State) (c : Contact)
    (h : st.chartContext = true) :
    (showContactDetails st c).lastChart
      = some (groupContacts GroupBy.city st.contacts, "Contacts") := by
  unfold showContactDetails
  rw [updateChart_lastChart _ _ (by simpa using h)]

theorem switchTab_contact_activeTab (st : State) :
    ((switchTab st "contact").1).activeTab = "contact" := by
  simp only [switchTab]
  split
  · rfl
  · split
    · split
      · simp [showContactDetails_activeTab]
      · rfl
    · rfl

theorem switchTab_contact_selectedContactId (st : State) :
    ((switchTab st "contact").1).selectedContactId = st.selectedContactId := by
  simp only [switchTab]
  split
  · rfl
  · split
    · split
      · simp [showContactDetails_selectedContactId]
      · rfl
    · rfl

theorem switchTab_contacts (st : State) (t : String) :
    ((switchTab st t).1).contacts = st.contacts := by
  simp only [switchTab]
  split
  · rfl
  · split
    · split
      · simp [showContactDetails_contacts]
      · rfl
    · rfl

theorem switchTab_contact_chartContext (st : State) :
    ((switchTab st "contact").1).chartContext = st.chartContext := by
  simp only [switchTab]
  split
  · rfl
  · split
    · split
      · simp [showContactDetails_chartContext]
      · rfl
    · rfl

theorem switchTab_contact_activeGroup (st : State) :
    ((switchTab st "contact").1).activeGroup = st.activeGroup := by
  simp only [switchTab]
  split
  · rfl
  · split
    · split
      · simp [showContactDetails_activeGroup]
      · rfl
    · rfl

theorem rep_append (p : Char) (r x y : List Char) :
    rep p r (x ++ y) = rep p r x ++ rep p r y := by
  induction x with
  | nil => simp [rep]
  | cons a rest ih => simp [rep, ih]

theorem escapeHtmlData_append (x y : List Char) :
    escapeHtmlData (x ++ y) = escapeHtmlData x ++ escapeHtmlData y := by
  simp [escapeHtmlData, rep_append]

theorem escapeHtmlData_single (a : Char) : escapeHtmlData [a] = escChar a := by
  by_cases h1 : a = '&'
  · subst h1; decide
  by_cases h2 : a = '<'
  · subst h2; decide
  by_cases h3 : a = '>'
  · subst h3; decide
  by_cases h4 : a = '"'
  · subst h4; decide
  by_cases h5 : a = Char.ofNat 39
  · subst h5; decide
  simp [escapeHtmlData, rep, escChar, h1, h2, h3, h4, h5]

theorem escapeHtmlData_eq_escAll (s : List Char) :
    escapeHtmlData s = escAll s := by
  induction s with
  | nil => decide
  | cons a rest ih =>
    have hsplit : a :: rest = [a] ++ rest := rfl
    rw [hsplit, escapeHtmlData_append, escapeHtmlData_single, ih]
    simp [escAll]

/-- C3: for every tab name other than contact, if no contact is selected,
switching to that tab sets the tab content to the literal text Select a
contact first. and invokes no related-data load. -/
theorem c3_tab_guard (st : State) (t : String)
    (hsel : st.selectedContactId = none) (ht : t ≠ "contact") :
    (switchTab st t).1.tabContent = "Select a contact first."
    ∧ (switchTab st t).2 = none := by
  simp only [switchTab]
  rw [if_pos ⟨hsel, ht⟩]
  exact ⟨rfl, rfl⟩

theorem c3_tab_guard_witness :
    (switchTab demoState "orders").1.tabContent = "Select a contact first."
    ∧ (switchTab demoState "orders").2 = none :=
  c3_tab_guard demoState "orders" rfl (by decide)

/-- C4: selecting a contact sets the active tab to contact, records the
selected id, and fills the detail panel with the contact name, email, city
and job title, each field HTML-escaped; escapeHtml replaces every one of the
five HTML-special characters by its entity and leaves every other character
in place. -/
theorem c4_select_details :
    (∀ st c, (onContactSelect st c).activeTab = "contact"
      ∧ (onContactSelect st c).selectedContactId = some c.id
      ∧ (onContactSelect st c).tabContent = detailsHtml c)
    ∧ (∀ s, (escapeHtml s).data = escAll s.data)
    ∧ escapeHtml "a&b<c>\"d\"" = "a&amp;b&lt;c&gt;&quot;d&quot;"
    ∧ escapeHtml ⟨[Char.ofNat 39]⟩ = "&#039;" := by
  refine ⟨?_, ?_, by decide, by decide⟩
  · intro st c
    refine ⟨?_, ?_, ?_⟩
    · rw [onContactSelect, showContactDetails_activeTab,
        switchTab_contact_activeTab]
    · rw [onContactSelect, showContactDetails_selectedContactId,
        switchTab_contact_selectedContactId]
    · rw [onContactSelect, showContactDetails_tabContent]
  · intro s
    simp [escapeHtml, escapeHtmlData_eq_escAll]

/-- C5: getColors returns one color per category, cycling through the fixed
8-entry palette by index modulo 8. -/
theorem c5_colors_cyclic (n i : Nat) (h : i < n) :
    (getColors n).length = n
    ∧ (getColors n).getD i "" = palette.getD (i % 8) "" := by
  constructor
  · simp [getColors]
  · rw [getColors, List.getD_eq_getElem?_getD, List.getElem?_map,
      List.getElem?_range h]
    rfl

theorem c5_colors_cyclic_witness :
    (getColors 9).length = 9
    ∧ (getColors 9).getD 8 "" = palette.getD (8 % 8) "" :=
  c5_colors_cyclic 9 8 (by decide)

/-- C2 (amended): the search handler renders exactly the subset of stored
contacts whose name contains the whitespace-trimmed search term
case-insensitively, keeping the stored order, and the stored contact
sequence itself is left unchanged by filtering. -/
theorem c2_search_amended (raw : String) (st : State) :
    (searchHandler raw st).contacts = st.contacts
    ∧ ((searchHandler raw st).contactListView).Sublist st.contacts
    ∧ ∀ c, c ∈ (searchHandler raw st).contactListView ↔
        c ∈ st.contacts ∧ hasSub (lowerStr (jsTrim raw)) (lowerStr c.name) = true := by
  refine ⟨rfl, ?_, ?_⟩
  · simp only [searchHandler, searchFilter]
    exact List.filter_sublist st.contacts
  · intro c
    simp [searchHandler, searchFilter, List.mem_filter]

/-- C2 counterexample to the claim as stated: with the stored contact named
x and the entered term consisting of a space and x, the handler renders that
contact although its name does not contain the entered term
case-insensitively, because the code trims the term first. -/
theorem c2_search_counterexample :
    (searchHandler " x" demoLoaded).contactListView = [demoContact]
    ∧ hasSub (lowerStr " x") (lowerStr demoContact.name) = false
    ∧ claimSearchFilter " x" demoLoaded.contacts = [] := by
  refine ⟨by decide, by decide, by decide⟩

/-- C6: a successful load stores exactly the raw records mapped to the
Contact shape, in input order, keeping those whose id is non-empty, and a
record with every optional attribute missing maps to the sentinel defaults
Unnamed, N/A, Unknown, N/A. -/
theorem c6_load_mapping (es : List Entity) :
    (loadedContacts es).Sublist (es.map toContact)
    ∧ (∀ c, c ∈ loadedContacts es ↔ c ∈ es.map toContact ∧ c.id ≠ "")
    ∧ (∀ st, ((loadContacts st (Except.ok es)).1).contacts = loadedContacts es)
    ∧ (∀ i, toContact ⟨some i, none, none, none, none⟩
        = ⟨i, "Unnamed", "N/A", "Unknown", "N/A"⟩) := by
  refine ⟨List.filter_sublist (es.map toContact), ?_, ?_, fun i => rfl⟩
  · intro c
    simp [loadedContacts, List.mem_filter]
  · intro st
    simp [loadContacts, updateChart_contacts]

/-- C7: a rejected contact fetch is caught: the only state change is the
fixed failure message in the tab panel, the error is logged, no further
fetch is issued, and the stored contact sequence is unchanged. -/
theorem c7_load_failure (st : State) (e : String) :
    loadContacts st (Except.error e)
      = ({ st with tabContent := failMsg }, [Eff.logError])
    ∧ (loadContacts st (Except.error e)).1.contacts = st.contacts
    ∧ Eff.fetchContacts ∉ (loadContacts st (Except.error e)).2 := by
  refine ⟨rfl, rfl, ?_⟩
  simp [loadContacts]

/-- C9 (amended): the stored contact sequence is written only by a
successful load: every handler and lifecycle step leaves it unchanged, and
destroy only tears down the chart instance, leaving every other field, the
stored contacts included, in place. -/
theorem c9_contacts_frame :
    (∀ st, destroy st = { st with chart := false })
    ∧ (∀ st raw, (searchHandler raw st).contacts = st.contacts)
    ∧ (∀ st t, ((switchTab st t).1).contacts = st.contacts)
    ∧ (∀ st c, (onContactSelect st c).contacts = st.contacts)
    ∧ (∀ st t, (changeChartType st t).contacts = st.contacts)
    ∧ (∀ st, (clickByCity st).contacts = st.contacts)
    ∧ (∀ st, (clickByJob st).contacts = st.contacts)
    ∧ (∀ st ent n, (resolveRelated st ent n).contacts = st.contacts)
    ∧ (∀ st e, (loadContacts st (Except.error e)).1.contacts = st.contacts)
    ∧ (∀ st, (destroy st).contacts = st.contacts) := by
  refine ⟨fun st => rfl, fun st raw => rfl, switchTab_contacts, ?_, ?_, ?_, ?_,
    ?_, fun st e => rfl, fun st => rfl⟩
  · intro st c
    simp [onContactSelect, showContactDetails_contacts, switchTab_contacts]
  · intro st t
    simp [changeChartType, updateChart_contacts]
  · intro st
    simp [clickByCity, updateChart_contacts]
  · intro st
    simp [clickByJob, updateChart_contacts]
  · intro st ent n
    simp only [resolveRelated, updateChartByEntity]
    split <;> rfl

/-- C9 counterexample to the claim as stated: destroy does not clear the
stored contact sequence, so after destroy the control still holds the loaded
contact records. -/
theorem c9_destroy_counterexample :
    (destroy demoLoaded).contacts = [demoContact]
    ∧ (destroy demoLoaded).contacts ≠ [] := by
  exact ⟨rfl, by decide⟩

/-- C10: rendering contact details always redraws the chart grouped by city,
whatever grouping toggle is active, and leaves the toggle state untouched:
an active By Job grouping is silently overridden by any contact selection. -/
theorem c10_details_reset_city (st : State) (c : Contact)
    (h : st.chartContext = true) :
    (showContactDetails st c).lastChart
      = some (groupContacts GroupBy.city st.contacts, "Contacts")
    ∧ (onContactSelect st c).lastChart
      = some (groupContacts GroupBy.city st.contacts, "Contacts")
    ∧ (onContactSelect st c).activeGroup = st.activeGroup := by
  refine ⟨showContactDetails_lastChart st c h, ?_, ?_⟩
  · have h1 : ((switchTab { st with selectedContactId := some c.id }
        "contact").1).chartContext = true := by
      rw [switchTab_contact_chartContext]
      simpa using h
    simp only [onContactSelect]
    rw [showContactDetails_lastChart _ _ h1, switchTab_contacts]
  · simp only [onContactSelect]
    rw [showContactDetails_activeGroup, switchTab_contact_activeGroup]

theorem c10_details_reset_city_witness :
    (showContactDetails demoLoaded demoContact).lastChart
      = some (groupContacts GroupBy.city demoLoaded.contacts, "Contacts")
    ∧ (onContactSelect demoLoaded demoContact).lastChart
      = some (groupContacts GroupBy.city demoLoaded.contacts, "Contacts")
    ∧ (onContactSelect demoLoaded demoContact).activeGroup
      = demoLoaded.activeGroup :=
  c10_details_reset_city demoLoaded demoContact rfl

/-- C8: run from a loaded state with a contact selected, clicking a related
tab leaves a fetch pending; destroying the control does not cancel it, and
when the pending continuation resolves it performs a DOM write into the
container even though the container was removed by destroy: the code has no
guard, so the claimed property fails on this interleaving. -/
theorem c8_destroy_pending_render :
    (run ⟨demoLoaded, none, false, 0⟩ [Ev.clickTab "orders", Ev.hostDestroy]).pending
      = some "orders"
    ∧ (run ⟨demoLoaded, none, false, 0⟩ [Ev.clickTab "orders", Ev.hostDestroy]).removed
      = true
    ∧ (run ⟨demoLoaded, none, false, 0⟩
        [Ev.clickTab "orders", Ev.hostDestroy, Ev.resolve 2]).writesAfterRemoval
      = 1 := by
  refine ⟨?_, ?_, ?_⟩ <;> rfl
